/-
Verification of the wind-tunnel acquisition sketch
(`Wind Tunnel/WinTunnel/WinTunnel.ino`).

The sketch is a single Arduino `loop` that, each cycle:
  * polls four HX711 load cells (substituting 0 when a cell is not ready),
  * samples the pitot-tube ADC and converts it to a pressure in Pa,
  * captures / subtracts the pressure baseline `pressure0`,
  * clamps to a dynamic pressure,
  * reads the DHT11 temperature (falling back to -99 on NaN),
  * derives air density and wind speed,
  * prints one CSV line on the single serial stream.

The embedding below models all numeric state with `ℚ` (the sketch's
`float` arithmetic idealised as exact rationals), models a failed DHT
read (`isnan`) as `Option.none`, and models the serial output as lists
of characters.  The only irrational quantity, `windSpeed`, is
represented by its radicand `windSpeedSq = 2 * dynamicPressure /
density`; the actual speed is `Real.sqrt` of it, which theorems mention
directly.
-/
import Mathlib

namespace WinTunnel

/-- `const float Vcc = 5.0` — voltage supplied to the pitot tube. -/
def Vcc : ℚ := 5

/-- `const float ADC_RES = 1023.0` — 10-bit ADC full scale. -/
def ADC_RES : ℚ := 1023

/-- `const float P_max = 2.0` — sensor range in kPa. -/
def P_max : ℚ := 2

/-- `const float V_offset = 0.5` — voltage at zero pressure. -/
def V_offset : ℚ := 1/2

/-- `const float atm_pressure = 101325` — atmospheric pressure in Pa. -/
def atm_pressure : ℚ := 101325

/-- `float voltage = (adcValue / ADC_RES) * Vcc`. -/
def voltageOf (adcValue : ℤ) : ℚ := ((adcValue : ℚ) / ADC_RES) * Vcc

/-- `float pressure_Pa = (voltage - V_offset) * (P_max / (Vcc - 2 * V_offset)) * 1000.0`
— the uncorrected pressure computed from one raw ADC sample, before any
baseline subtraction. -/
def rawPressure (adcValue : ℤ) : ℚ :=
  (voltageOf adcValue - V_offset) * (P_max / (Vcc - 2 * V_offset)) * 1000

/-- One cycle's worth of sensor inputs to `loop`.  `ready` models
`scaleN.is_ready()` and `units` the value `scaleN.get_units()` would
return; `dhtTemp = none` models `dht.readTemperature()` returning NaN. -/
structure CycleInput where
  ready1 : Bool
  units1 : ℚ
  ready2 : Bool
  units2 : ℚ
  ready3 : Bool
  units3 : ℚ
  ready4 : Bool
  units4 : ℚ
  adcValue : ℤ
  dhtTemp : Option ℚ

/-- The per-cycle values `loop` computes and prints.  `windSpeedSq` is
the radicand `(2.0 * dynamicPressure) / density` of the sketch's
`windSpeed = sqrt((2.0 * dynamicPressure) / density)`. -/
structure CycleResult where
  f1 : ℚ
  f2 : ℚ
  f3 : ℚ
  f4 : ℚ
  pressure_Pa : ℚ
  dynamicPressure : ℚ
  temperature : ℚ
  temperatureK : ℚ
  density : ℚ
  windSpeedSq : ℚ

/-- One iteration of `loop`, from the mutable baseline `pressure0` and
the cycle's sensor inputs to the updated baseline and the computed
record.  Mirrors the sketch line by line: the C truth test
`if (pressure0)` is `pressure0 ≠ 0`; on the else branch the baseline is
assigned and `pressure_Pa` is left uncorrected. -/
def loopCycle (pressure0 : ℚ) (inp : CycleInput) : ℚ × CycleResult :=
  let f1 := if inp.ready1 then inp.units1 else 0
  let f2 := if inp.ready2 then inp.units2 else 0
  let f3 := if inp.ready3 then inp.units3 else 0
  let f4 := if inp.ready4 then inp.units4 else 0
  let p := rawPressure inp.adcValue
  let corrected := if pressure0 ≠ 0 then p - pressure0 else p
  let pressure0' := if pressure0 ≠ 0 then pressure0 else p
  let dynamicPressure := max corrected 0
  let temperature := match inp.dhtTemp with
    | Option.none => -99
    | Option.some t => t
  let temperatureK := temperature + 27315/100
  let density := (atm_pressure - dynamicPressure) / ((28705/100) * temperatureK)
  let windSpeedSq := (2 * dynamicPressure) / density
  (pressure0',
   { f1 := f1, f2 := f2, f3 := f3, f4 := f4,
     pressure_Pa := corrected, dynamicPressure := dynamicPressure,
     temperature := temperature, temperatureK := temperatureK,
     density := density, windSpeedSq := windSpeedSq })

/-- The baseline left after running `loop` over a list of cycles. -/
def runBaseline (pressure0 : ℚ) : List CycleInput → ℚ
  | [] => pressure0
  | i :: is => runBaseline (loopCycle pressure0 i).1 is

/-- The records produced by running `loop` over a list of cycles. -/
def runLoop (pressure0 : ℚ) : List CycleInput → List CycleResult
  | [] => []
  | i :: is => (loopCycle pressure0 i).2 :: runLoop (loopCycle pressure0 i).1 is

/-- Spec-side description of the baseline: the first non-zero computed
raw pressure of the input sequence, `0` if there is none. -/
def firstNonzeroPressure : List CycleInput → ℚ
  | [] => 0
  | i :: is =>
      if rawPressure i.adcValue ≠ 0 then rawPressure i.adcValue
      else firstNonzeroPressure is

/-! ### Serial output model

Arduino's `Print::printFloat(double, uint8_t digits)` is the routine
behind every `Serial.print(x, n)` in the sketch.  It prints `nan` /
`inf` for non-finite values (unreachable in the rational model), `ovf`
for magnitudes above 4294967040, else an optional minus sign, the
integer part after adding a rounding term `0.5 * 10^-digits`, a decimal
point when `digits > 0`, and then exactly `digits` digits extracted one
at a time from the remainder. -/

/-- The decimal digit characters, indexed by digit value. -/
def digitChar (d : ℕ) : Char :=
  ['0', '1', '2', '3', '4', '5', '6', '7', '8', '9'].getD d '*'

/-- Fuel-indexed decimal rendering of a natural number, most significant
digit first (the fuel `n + 1` always suffices for `n`). -/
def natCharsAux : ℕ → ℕ → List Char
  | 0, _ => []
  | fuel + 1, n =>
      if n < 10 then [digitChar n]
      else natCharsAux fuel (n / 10) ++ [digitChar (n % 10)]

/-- Decimal rendering of a natural number (Arduino `Print::print` of the
integer part). -/
def natChars (n : ℕ) : List Char := natCharsAux (n + 1) n

/-- The `digits` fractional digits printed from remainder `f`: each step
multiplies by ten, prints the integer part and keeps the remainder. -/
def fracChars : ℚ → ℕ → List Char
  | _, 0 => []
  | f, d + 1 =>
      let f10 := f * 10
      digitChar (Int.toNat ⌊f10⌋) :: fracChars (f10 - ⌊f10⌋) d

/-- Overflow threshold of `Print::printFloat`. -/
def printFloatOvf : ℚ := 4294967040

/-- Arduino `Print::printFloat` on an exact rational value. -/
def printFloat (q : ℚ) (digits : ℕ) : List Char :=
  if q > printFloatOvf ∨ q < -printFloatOvf then ['o', 'v', 'f']
  else
    let sign : List Char := if q < 0 then ['-'] else []
    let a : ℚ := if q < 0 then -q else q
    let x : ℚ := a + (1/2) / 10 ^ digits
    sign ++ natChars (Int.toNat ⌊x⌋) ++
      (if 0 < digits then '.' :: fracChars (x - ⌊x⌋) digits else [])

/-- The seven CSV fields of one data row, in the order and with the
decimal counts of the sketch's print calls: wind speed (2), density (3),
the four loads (2 each), temperature (1).  Parametric in the wind-speed
value `ws`, the one field whose numeric value (`sqrt windSpeedSq` as a
`float`) is not rational. -/
def csvFields (ws density f1 f2 f3 f4 temperature : ℚ) : List (List Char) :=
  [printFloat ws 2, printFloat density 3, printFloat f1 2, printFloat f2 2,
   printFloat f3 2, printFloat f4 2, printFloat temperature 1]

/-- The CSV data line: the sketch's sequence
`Serial.print(windSpeed, 2); Serial.print(","); ...;
Serial.println(temperature, 1)`. -/
def csvLine (ws density f1 f2 f3 f4 temperature : ℚ) : List Char :=
  printFloat ws 2 ++ [','] ++ printFloat density 3 ++ [','] ++
  printFloat f1 2 ++ [','] ++ printFloat f2 2 ++ [','] ++
  printFloat f3 2 ++ [','] ++ printFloat f4 2 ++ [','] ++
  printFloat temperature 1

/-- The diagnostic line `Serial.println("⚠️ DHT11 read failed!")`. -/
def dhtNotice : List Char := "⚠️ DHT11 read failed!".toList

/-- All lines one `loop` iteration writes to the single serial stream,
in program order: the DHT failure notice (if the read was invalid)
followed by the CSV data line.  `ws` is the printed wind-speed value. -/
def cycleLines (pressure0 : ℚ) (inp : CycleInput) (ws : ℚ) : List (List Char) :=
  let r := (loopCycle pressure0 inp).2
  (match inp.dhtTemp with
    | Option.none => [dhtNotice]
    | Option.some _ => []) ++
  [csvLine ws r.density r.f1 r.f2 r.f3 r.f4 r.temperature]

/-! ### Equation lemmas for `loopCycle` -/

theorem loopCycle_fst (p0 : ℚ) (inp : CycleInput) :
    (loopCycle p0 inp).1 = if p0 ≠ 0 then p0 else rawPressure inp.adcValue := by
  simp only [loopCycle]

theorem loopCycle_f1 (p0 : ℚ) (inp : CycleInput) :
    ((loopCycle p0 inp).2).f1 = if inp.ready1 then inp.units1 else 0 := by
  simp only [loopCycle]

theorem loopCycle_f2 (p0 : ℚ) (inp : CycleInput) :
    ((loopCycle p0 inp).2).f2 = if inp.ready2 then inp.units2 else 0 := by
  simp only [loopCycle]

theorem loopCycle_f3 (p0 : ℚ) (inp : CycleInput) :
    ((loopCycle p0 inp).2).f3 = if inp.ready3 then inp.units3 else 0 := by
  simp only [loopCycle]

theorem loopCycle_f4 (p0 : ℚ) (inp : CycleInput) :
    ((loopCycle p0 inp).2).f4 = if inp.ready4 then inp.units4 else 0 := by
  simp only [loopCycle]

theorem loopCycle_pressure_Pa (p0 : ℚ) (inp : CycleInput) :
    ((loopCycle p0 inp).2).pressure_Pa =
      if p0 ≠ 0 then rawPressure inp.adcValue - p0 else rawPressure inp.adcValue := by
  simp only [loopCycle]

theorem loopCycle_dynamicPressure (p0 : ℚ) (inp : CycleInput) :
    ((loopCycle p0 inp).2).dynamicPressure = max ((loopCycle p0 inp).2).pressure_Pa 0 := by
  simp only [loopCycle]

theorem loopCycle_temperature (p0 : ℚ) (inp : CycleInput) :
    ((loopCycle p0 inp).2).temperature =
      match inp.dhtTemp with
      | Option.none => -99
      | Option.some t => t := by
  simp only [loopCycle]

theorem loopCycle_temperatureK (p0 : ℚ) (inp : CycleInput) :
    ((loopCycle p0 inp).2).temperatureK = ((loopCycle p0 inp).2).temperature + 27315/100 := by
  simp only [loopCycle]

theorem loopCycle_density (p0 : ℚ) (inp : CycleInput) :
    ((loopCycle p0 inp).2).density =
      (atm_pressure - ((loopCycle p0 inp).2).dynamicPressure) /
        ((28705/100) * ((loopCycle p0 inp).2).temperatureK) := by
  simp only [loopCycle]

theorem loopCycle_windSpeedSq (p0 : ℚ) (inp : CycleInput) :
    ((loopCycle p0 inp).2).windSpeedSq =
      (2 * ((loopCycle p0 inp).2).dynamicPressure) / ((loopCycle p0 inp).2).density := by
  simp only [loopCycle]

/-! ### Arithmetic helpers -/

/-- The conversion pipeline in closed linear form. -/
theorem rawPressure_eq (a : ℤ) : rawPressure a = (2500 * (a : ℚ) - 255750) / 1023 := by
  unfold rawPressure voltageOf Vcc ADC_RES P_max V_offset
  ring

/-- Range of the uncorrected pressure over the 10-bit ADC domain. -/
theorem rawPressure_bounds (a : ℤ) (h0 : 0 ≤ a) (h1 : a ≤ 1023) :
    -250 ≤ rawPressure a ∧ rawPressure a ≤ 2250 := by
  have ha0 : (0 : ℚ) ≤ (a : ℚ) := by exact_mod_cast h0
  have ha1 : (a : ℚ) ≤ 1023 := by exact_mod_cast h1
  rw [rawPressure_eq]
  constructor
  · rw [le_div_iff₀ (by norm_num : (0 : ℚ) < 1023)]
    linarith
  · rw [div_le_iff₀ (by norm_num : (0 : ℚ) < 1023)]
    linarith

/-- A non-zero baseline is never changed by later cycles. -/
theorem runBaseline_of_ne (p0 : ℚ) (h : p0 ≠ 0) :
    ∀ inputs : List CycleInput, runBaseline p0 inputs = p0 := by
  intro inputs
  induction inputs with
  | nil => rfl
  | cons i is ih =>
      simpa [runBaseline, loopCycle_fst, h] using ih

/-! ### Character-level helpers for the printed output -/

theorem digitChar_ne_comma (d : ℕ) : digitChar d ≠ ',' := by
  by_cases hd : d < 10
  · interval_cases d <;> decide
  · unfold digitChar
    rw [List.getD_eq_default]
    · decide
    · simpa using Nat.le_of_not_lt hd

theorem digitChar_ne_dot (d : ℕ) : digitChar d ≠ '.' := by
  by_cases hd : d < 10
  · interval_cases d <;> decide
  · unfold digitChar
    rw [List.getD_eq_default]
    · decide
    · simpa using Nat.le_of_not_lt hd

theorem mem_natCharsAux (fuel : ℕ) : ∀ (n : ℕ) (c : Char),
    c ∈ natCharsAux fuel n → ∃ d, c = digitChar d := by
  induction fuel with
  | zero => intro n c hc; simp [natCharsAux] at hc
  | succ fuel ih =>
      intro n c hc
      rw [natCharsAux] at hc
      by_cases hn : n < 10
      · rw [if_pos hn] at hc
        exact ⟨n, by simpa using hc⟩
      · rw [if_neg hn] at hc
        rcases List.mem_append.mp hc with h | h
        · exact ih (n / 10) c h
        · exact ⟨n % 10, by simpa using h⟩

theorem mem_natChars (n : ℕ) (c : Char) (hc : c ∈ natChars n) : ∃ d, c = digitChar d :=
  mem_natCharsAux (n + 1) n c hc

theorem mem_fracChars (k : ℕ) : ∀ (f : ℚ) (c : Char),
    c ∈ fracChars f k → ∃ d, c = digitChar d := by
  induction k with
  | zero => intro f c hc; simp [fracChars] at hc
  | succ k ih =>
      intro f c hc
      rw [fracChars] at hc
      rcases List.mem_cons.mp hc with h | h
      · exact ⟨Int.toNat ⌊f * 10⌋, h⟩
      · exact ih _ c h

theorem fracChars_length (k : ℕ) : ∀ f : ℚ, (fracChars f k).length = k := by
  induction k with
  | zero => intro f; rfl
  | succ k ih => intro f; simp [fracChars, ih]

theorem comma_notMem_printFloat (q : ℚ) (digits : ℕ) : ',' ∉ printFloat q digits := by
  intro hc
  unfold printFloat at hc
  by_cases hovf : q > printFloatOvf ∨ q < -printFloatOvf
  · rw [if_pos hovf] at hc
    simp at hc
  · rw [if_neg hovf] at hc
    simp only [List.mem_append] at hc
    rcases hc with (h | h) | h
    · by_cases hq : q < 0 <;> simp [hq] at h
    · rcases mem_natChars _ _ h with ⟨d, hd⟩
      exact digitChar_ne_comma d hd.symm
    · by_cases hd : 0 < digits
      · rw [if_pos hd] at h
        rcases List.mem_cons.mp h with h | h
        · exact absurd h.symm (by decide)
        · rcases mem_fracChars _ _ _ h with ⟨d, hd2⟩
          exact digitChar_ne_comma d hd2.symm
      · rw [if_neg hd] at h
        simp at h

theorem count_comma_printFloat (q : ℚ) (digits : ℕ) :
    (printFloat q digits).count ',' = 0 :=
  List.count_eq_zero.mpr (comma_notMem_printFloat q digits)

/-- Number of characters strictly after the last `'.'` of a line (the
whole line when there is no dot): how many decimals a printed field
carries. -/
def decimalsOf (l : List Char) : ℕ :=
  ((l.reverse).takeWhile (fun c => c != '.')).length

theorem takeWhile_all_append (p : Char → Bool) (l1 : List Char) (x : Char) (l2 : List Char)
    (h1 : ∀ c ∈ l1, p c = true) (hx : p x = false) :
    (l1 ++ x :: l2).takeWhile p = l1 := by
  induction l1 with
  | nil => simp [List.takeWhile_cons, hx]
  | cons a l ih =>
      have ha : p a = true := h1 a (List.mem_cons_self a l)
      simp only [List.cons_append, List.takeWhile_cons, ha, if_true]
      rw [ih fun c hc => h1 c (List.mem_cons_of_mem a hc)]

/-- Every in-range field printed with `digits > 0` decimals carries
exactly `digits` characters after its decimal point. -/
theorem decimalsOf_printFloat (q : ℚ) (digits : ℕ) (hdig : 0 < digits)
    (hlo : -printFloatOvf ≤ q) (hhi : q ≤ printFloatOvf) :
    decimalsOf (printFloat q digits) = digits := by
  have hovf : ¬(q > printFloatOvf ∨ q < -printFloatOvf) := by
    push_neg
    exact ⟨hhi, hlo⟩
  unfold printFloat
  rw [if_neg hovf]
  simp only [if_pos hdig]
  unfold decimalsOf
  simp only [List.reverse_append, List.reverse_cons, List.append_assoc, List.singleton_append,
    List.cons_append]
  rw [takeWhile_all_append]
  · rw [List.length_reverse, fracChars_length]
  · intro c hc
    rcases mem_fracChars _ _ _ (List.mem_reverse.mp hc) with ⟨d, hd⟩
    subst hd
    simpa using digitChar_ne_dot d
  · decide

theorem csvLine_eq_intercalate (ws density f1 f2 f3 f4 temperature : ℚ) :
    csvLine ws density f1 f2 f3 f4 temperature =
      List.intercalate [','] (csvFields ws density f1 f2 f3 f4 temperature) := by
  simp [csvLine, csvFields, List.intercalate, List.intersperse]

theorem csvLine_count_comma (ws density f1 f2 f3 f4 temperature : ℚ) :
    (csvLine ws density f1 f2 f3 f4 temperature).count ',' = 6 := by
  simp [csvLine, List.count_append, count_comma_printFloat]

theorem printFloat_zero_two : printFloat 0 2 = ['0', '.', '0', '0'] := by
  norm_num [printFloat, printFloatOvf, natChars, natCharsAux, fracChars, digitChar]

/-! ### Concrete cycle inputs used by witnesses and counterexamples -/

/-- ADC 512, two cells ready, valid 25 °C thermal read. -/
def sampleInput : CycleInput :=
  { ready1 := true, units1 := 1, ready2 := false, units2 := 7,
    ready3 := true, units3 := 2, ready4 := false, units4 := 5,
    adcValue := 512, dhtTemp := Option.some 25 }

/-- ADC 512, all four load cells not ready, valid 25 °C thermal read. -/
def allNotReadyInput : CycleInput :=
  { ready1 := false, units1 := 3, ready2 := false, units2 := 4,
    ready3 := false, units3 := 5, ready4 := false, units4 := 6,
    adcValue := 512, dhtTemp := Option.some 25 }

/-- ADC 512 with an invalid (NaN) thermal read. -/
def invalidTempInput : CycleInput :=
  { ready1 := false, units1 := 0, ready2 := false, units2 := 0,
    ready3 := false, units3 := 0, ready4 := false, units4 := 0,
    adcValue := 512, dhtTemp := Option.none }

/-- Adversarial input for the wind-speed division: ADC 512 together with
a thermal reading of -300 °C, which drives the derived density below
zero. -/
def adversarialInput : CycleInput :=
  { ready1 := false, units1 := 0, ready2 := false, units2 := 0,
    ready3 := false, units3 := 0, ready4 := false, units4 := 0,
    adcValue := 512, dhtTemp := Option.some (-300) }

/-! ### Claim theorems -/

/-- C1: the claim states that when the derived air density is zero or
negative, the wind-speed computation guards the division and emits a
defined, finite, non-negative value.  The code has no such guard: it
computes `windSpeed = sqrt((2.0 * dynamicPressure) / density)`
unconditionally.  At ADC 512 with a thermal reading of -300 °C the
derived density is negative and the radicand of the square root is
negative, so the IEEE `sqrt` produces NaN, which is printed into the
output stream.  This theorem evaluates the embedded loop at that
failing input. -/
theorem C1_windSpeed_division_unguarded :
    ((loopCycle 0 adversarialInput).2).density < 0 ∧
    ((loopCycle 0 adversarialInput).2).windSpeedSq < 0 := by
  constructor
  · norm_num [loopCycle, adversarialInput, rawPressure_eq, atm_pressure, max_def]
  · norm_num [loopCycle, adversarialInput, rawPressure_eq, atm_pressure, max_def]

/-- C2: the baseline `pressure0` is written exactly once: once non-zero
it is never modified; starting from the boot value 0 it ends up holding
the first non-zero computed raw pressure of the run (a qualifying value
of exactly zero leaves it unset and the capture is retried); and a cycle
immediately after capture whose raw reading is unchanged reports dynamic
pressure exactly 0. -/
theorem C2_pressure0_write_once :
    (∀ (p0 : ℚ) (inp : CycleInput), p0 ≠ 0 → (loopCycle p0 inp).1 = p0) ∧
    (∀ inputs : List CycleInput, runBaseline 0 inputs = firstNonzeroPressure inputs) ∧
    (∀ inp inp2 : CycleInput, rawPressure inp.adcValue ≠ 0 →
      inp2.adcValue = inp.adcValue →
      ((loopCycle (loopCycle 0 inp).1 inp2).2).dynamicPressure = 0) := by
  refine ⟨?_, ?_, ?_⟩
  · intro p0 inp h
    simp [loopCycle_fst, h]
  · intro inputs
    induction inputs with
    | nil => rfl
    | cons i is ih =>
        have hfst : (loopCycle 0 i).1 = rawPressure i.adcValue := by
          simp [loopCycle_fst]
        rw [runBaseline, firstNonzeroPressure, hfst]
        by_cases h : rawPressure i.adcValue = 0
        · simpa [h] using ih
        · simp [h, runBaseline_of_ne _ h]
  · intro inp inp2 hraw heq
    have hfst : (loopCycle 0 inp).1 = rawPressure inp.adcValue := by
      simp [loopCycle_fst]
    rw [loopCycle_dynamicPressure, loopCycle_pressure_Pa, hfst, if_pos hraw, heq]
    simp

/-- Witness for C2 at concrete inputs: baseline 5 survives a cycle, a
one-cycle run captures the first non-zero pressure, and a repeat of the
capture cycle's reading yields dynamic pressure 0. -/
theorem C2_pressure0_write_once_witness :
    (5 : ℚ) ≠ 0 ∧ (loopCycle 5 sampleInput).1 = 5 ∧
    runBaseline 0 [sampleInput] = firstNonzeroPressure [sampleInput] ∧
    rawPressure sampleInput.adcValue ≠ 0 ∧
    ((loopCycle (loopCycle 0 sampleInput).1 sampleInput).2).dynamicPressure = 0 :=
  ⟨by norm_num,
   C2_pressure0_write_once.1 5 sampleInput (by norm_num),
   C2_pressure0_write_once.2.1 [sampleInput],
   by norm_num [sampleInput, rawPressure_eq],
   C2_pressure0_write_once.2.2 sampleInput sampleInput
     (by norm_num [sampleInput, rawPressure_eq]) rfl⟩

/-- C3: for every raw ADC input — in fact for every baseline state and
every cycle input — the dynamic pressure folded into the emitted record
equals `max(baseline-corrected pressure, 0)` and is therefore never
negative. -/
theorem C3_dynamicPressure_clamped (p0 : ℚ) (inp : CycleInput) :
    ((loopCycle p0 inp).2).dynamicPressure =
      max ((loopCycle p0 inp).2).pressure_Pa 0 ∧
    0 ≤ ((loopCycle p0 inp).2).dynamicPressure :=
  ⟨loopCycle_dynamicPressure p0 inp, by
    rw [loopCycle_dynamicPressure]
    exact le_max_right _ _⟩

/-- C4: when the thermal read is invalid (NaN), the temperature used and
emitted is exactly the sentinel -99.0, the derivation still completes
with `-99 + 273.15 = 174.15` K in the density formula, and a full
7-field CSV record (6 commas) is still emitted on the stream that
cycle. -/
theorem C4_dht_invalid_fallback (p0 ws : ℚ) (inp : CycleInput)
    (h : inp.dhtTemp = Option.none) :
    ((loopCycle p0 inp).2).temperature = -99 ∧
    ((loopCycle p0 inp).2).temperatureK = 17415/100 ∧
    ((loopCycle p0 inp).2).density =
      (atm_pressure - ((loopCycle p0 inp).2).dynamicPressure) /
        ((28705/100) * (17415/100)) ∧
    csvLine ws ((loopCycle p0 inp).2).density ((loopCycle p0 inp).2).f1
        ((loopCycle p0 inp).2).f2 ((loopCycle p0 inp).2).f3 ((loopCycle p0 inp).2).f4
        ((loopCycle p0 inp).2).temperature ∈ cycleLines p0 inp ws ∧
    (csvLine ws ((loopCycle p0 inp).2).density ((loopCycle p0 inp).2).f1
        ((loopCycle p0 inp).2).f2 ((loopCycle p0 inp).2).f3 ((loopCycle p0 inp).2).f4
        ((loopCycle p0 inp).2).temperature).count ',' = 6 := by
  have ht : ((loopCycle p0 inp).2).temperature = -99 := by
    simp [loopCycle_temperature, h]
  have htK : ((loopCycle p0 inp).2).temperatureK = 17415/100 := by
    rw [loopCycle_temperatureK, ht]
    norm_num
  refine ⟨ht, htK, ?_, ?_, csvLine_count_comma _ _ _ _ _ _ _⟩
  · rw [loopCycle_density, htK]
  · simp [cycleLines, h]

/-- Witness for C4: the invalid-thermal input at baseline 0 emits the
sentinel and a full record. -/
theorem C4_dht_invalid_fallback_witness :
    invalidTempInput.dhtTemp = Option.none ∧
    ((loopCycle 0 invalidTempInput).2).temperature = -99 ∧
    ((loopCycle 0 invalidTempInput).2).temperatureK = 17415/100 ∧
    (csvLine 0 ((loopCycle 0 invalidTempInput).2).density
        ((loopCycle 0 invalidTempInput).2).f1 ((loopCycle 0 invalidTempInput).2).f2
        ((loopCycle 0 invalidTempInput).2).f3 ((loopCycle 0 invalidTempInput).2).f4
        ((loopCycle 0 invalidTempInput).2).temperature).count ',' = 6 :=
  ⟨rfl,
   (C4_dht_invalid_fallback 0 0 invalidTempInput rfl).1,
   (C4_dht_invalid_fallback 0 0 invalidTempInput rfl).2.1,
   (C4_dht_invalid_fallback 0 0 invalidTempInput rfl).2.2.2.2⟩

/-- C5: a weight channel whose readiness poll reports not ready
contributes exactly 0 that cycle; if all four are not ready the four
load fields print as `0.00`; and the loads have no influence on the
remaining fields, which are computed normally from the same pressure
and temperature inputs. -/
theorem C5_notReady_contributes_zero (p0 : ℚ) (inp : CycleInput) :
    (inp.ready1 = false → ((loopCycle p0 inp).2).f1 = 0) ∧
    (inp.ready2 = false → ((loopCycle p0 inp).2).f2 = 0) ∧
    (inp.ready3 = false → ((loopCycle p0 inp).2).f3 = 0) ∧
    (inp.ready4 = false → ((loopCycle p0 inp).2).f4 = 0) ∧
    (inp.ready1 = false → inp.ready2 = false → inp.ready3 = false → inp.ready4 = false →
      printFloat ((loopCycle p0 inp).2).f1 2 = ['0', '.', '0', '0'] ∧
      printFloat ((loopCycle p0 inp).2).f2 2 = ['0', '.', '0', '0'] ∧
      printFloat ((loopCycle p0 inp).2).f3 2 = ['0', '.', '0', '0'] ∧
      printFloat ((loopCycle p0 inp).2).f4 2 = ['0', '.', '0', '0']) ∧
    (∀ inp2 : CycleInput, inp2.adcValue = inp.adcValue → inp2.dhtTemp = inp.dhtTemp →
      ((loopCycle p0 inp2).2).dynamicPressure = ((loopCycle p0 inp).2).dynamicPressure ∧
      ((loopCycle p0 inp2).2).density = ((loopCycle p0 inp).2).density ∧
      ((loopCycle p0 inp2).2).temperature = ((loopCycle p0 inp).2).temperature ∧
      ((loopCycle p0 inp2).2).windSpeedSq = ((loopCycle p0 inp).2).windSpeedSq ∧
      (loopCycle p0 inp2).1 = (loopCycle p0 inp).1) := by
  refine ⟨?_, ?_, ?_, ?_, ?_, ?_⟩
  · intro h; simp [loopCycle_f1, h]
  · intro h; simp [loopCycle_f2, h]
  · intro h; simp [loopCycle_f3, h]
  · intro h; simp [loopCycle_f4, h]
  · intro h1 h2 h3 h4
    refine ⟨?_, ?_, ?_, ?_⟩ <;>
      simp [loopCycle_f1, loopCycle_f2, loopCycle_f3, loopCycle_f4,
        h1, h2, h3, h4, printFloat_zero_two]
  · intro inp2 hadc htemp
    have ht : ((loopCycle p0 inp2).2).temperature = ((loopCycle p0 inp).2).temperature := by
      rw [loopCycle_temperature, loopCycle_temperature, htemp]
    have htK : ((loopCycle p0 inp2).2).temperatureK = ((loopCycle p0 inp).2).temperatureK := by
      rw [loopCycle_temperatureK, loopCycle_temperatureK, ht]
    have hdp : ((loopCycle p0 inp2).2).dynamicPressure =
        ((loopCycle p0 inp).2).dynamicPressure := by
      rw [loopCycle_dynamicPressure, loopCycle_dynamicPressure,
        loopCycle_pressure_Pa, loopCycle_pressure_Pa, hadc]
    have hd : ((loopCycle p0 inp2).2).density = ((loopCycle p0 inp).2).density := by
      rw [loopCycle_density, loopCycle_density, hdp, htK]
    refine ⟨hdp, hd, ht, ?_, ?_⟩
    · rw [loopCycle_windSpeedSq, loopCycle_windSpeedSq, hdp, hd]
    · rw [loopCycle_fst, loopCycle_fst, hadc]

/-- Witness for C5: with all four channels not ready the four loads are
0 and print as `0.00`. -/
theorem C5_notReady_contributes_zero_witness :
    allNotReadyInput.ready1 = false ∧ allNotReadyInput.ready4 = false ∧
    ((loopCycle 0 allNotReadyInput).2).f1 = 0 ∧
    ((loopCycle 0 allNotReadyInput).2).f4 = 0 ∧
    printFloat ((loopCycle 0 allNotReadyInput).2).f1 2 = ['0', '.', '0', '0'] ∧
    printFloat ((loopCycle 0 allNotReadyInput).2).f4 2 = ['0', '.', '0', '0'] :=
  ⟨rfl, rfl,
   (C5_notReady_contributes_zero 0 allNotReadyInput).1 rfl,
   (C5_notReady_contributes_zero 0 allNotReadyInput).2.2.2.1 rfl,
   ((C5_notReady_contributes_zero 0 allNotReadyInput).2.2.2.2.1 rfl rfl rfl rfl).1,
   ((C5_notReady_contributes_zero 0 allNotReadyInput).2.2.2.2.1 rfl rfl rfl rfl).2.2.2⟩

/-- C6: every emitted data row consists of exactly the 7 fields in the
fixed header order (wind speed, density, the four loads, temperature),
joined by commas: the line is the comma-intercalation of those 7 fields,
it contains exactly 6 commas, and — for values inside the printable
range of `Print::printFloat` — each field carries exactly the specified
number of decimals: 2 for wind speed and the loads, 3 for density, 1
for temperature. -/
theorem C6_csv_row_shape (ws density f1 f2 f3 f4 temperature : ℚ)
    (h1 : |ws| ≤ printFloatOvf) (h2 : |density| ≤ printFloatOvf)
    (h3 : |f1| ≤ printFloatOvf) (h4 : |f2| ≤ printFloatOvf)
    (h5 : |f3| ≤ printFloatOvf) (h6 : |f4| ≤ printFloatOvf)
    (h7 : |temperature| ≤ printFloatOvf) :
    (csvFields ws density f1 f2 f3 f4 temperature).length = 7 ∧
    csvLine ws density f1 f2 f3 f4 temperature =
      List.intercalate [','] (csvFields ws density f1 f2 f3 f4 temperature) ∧
    (csvLine ws density f1 f2 f3 f4 temperature).count ',' = 6 ∧
    decimalsOf (printFloat ws 2) = 2 ∧
    decimalsOf (printFloat density 3) = 3 ∧
    decimalsOf (printFloat f1 2) = 2 ∧
    decimalsOf (printFloat f2 2) = 2 ∧
    decimalsOf (printFloat f3 2) = 2 ∧
    decimalsOf (printFloat f4 2) = 2 ∧
    decimalsOf (printFloat temperature 1) = 1 := by
  refine ⟨rfl, csvLine_eq_intercalate ws density f1 f2 f3 f4 temperature,
    csvLine_count_comma ws density f1 f2 f3 f4 temperature, ?_, ?_, ?_, ?_, ?_, ?_, ?_⟩ <;>
    first
      | exact decimalsOf_printFloat _ _ (by norm_num) (abs_le.mp h1).1 (abs_le.mp h1).2
      | exact decimalsOf_printFloat _ _ (by norm_num) (abs_le.mp h2).1 (abs_le.mp h2).2
      | exact decimalsOf_printFloat _ _ (by norm_num) (abs_le.mp h3).1 (abs_le.mp h3).2
      | exact decimalsOf_printFloat _ _ (by norm_num) (abs_le.mp h4).1 (abs_le.mp h4).2
      | exact decimalsOf_printFloat _ _ (by norm_num) (abs_le.mp h5).1 (abs_le.mp h5).2
      | exact decimalsOf_printFloat _ _ (by norm_num) (abs_le.mp h6).1 (abs_le.mp h6).2
      | exact decimalsOf_printFloat _ _ (by norm_num) (abs_le.mp h7).1 (abs_le.mp h7).2

/-- Witness for C6 at a concrete record (the all-failed cycle: speed 0,
density 2, loads 0, temperature -99). -/
theorem C6_csv_row_shape_witness :
    |(0 : ℚ)| ≤ printFloatOvf ∧ |(2 : ℚ)| ≤ printFloatOvf ∧
    |(-99 : ℚ)| ≤ printFloatOvf ∧
    (csvLine 0 (2 : ℚ) 0 0 0 0 (-99)).count ',' = 6 ∧
    decimalsOf (printFloat (2 : ℚ) 3) = 3 ∧
    decimalsOf (printFloat (-99) 1) = 1 :=
  ⟨by norm_num [printFloatOvf], by norm_num [printFloatOvf], by norm_num [printFloatOvf],
   (C6_csv_row_shape 0 (2 : ℚ) 0 0 0 0 (-99)
      (by norm_num [printFloatOvf]) (by norm_num [printFloatOvf]) (by norm_num [printFloatOvf])
      (by norm_num [printFloatOvf]) (by norm_num [printFloatOvf]) (by norm_num [printFloatOvf])
      (by norm_num [printFloatOvf])).2.2.1,
   (C6_csv_row_shape 0 (2 : ℚ) 0 0 0 0 (-99)
      (by norm_num [printFloatOvf]) (by norm_num [printFloatOvf]) (by norm_num [printFloatOvf])
      (by norm_num [printFloatOvf]) (by norm_num [printFloatOvf]) (by norm_num [printFloatOvf])
      (by norm_num [printFloatOvf])).2.2.2.2.1,
   (C6_csv_row_shape 0 (2 : ℚ) 0 0 0 0 (-99)
      (by norm_num [printFloatOvf]) (by norm_num [printFloatOvf]) (by norm_num [printFloatOvf])
      (by norm_num [printFloatOvf]) (by norm_num [printFloatOvf]) (by norm_num [printFloatOvf])
      (by norm_num [printFloatOvf])).2.2.2.2.2.2.2.2.2⟩

/-- C7 counterexample: the claim states the DHT diagnostic notice goes
to a side channel distinct from the data stream.  The sketch has a
single serial stream: on an invalid thermal read the notice line is an
element of the very same cycle output that carries the CSV record. -/
theorem C7_notice_not_on_data_stream_counterexample :
    dhtNotice ∈ cycleLines 0 invalidTempInput 0 ∧
    csvLine 0 ((loopCycle 0 invalidTempInput).2).density
        ((loopCycle 0 invalidTempInput).2).f1 ((loopCycle 0 invalidTempInput).2).f2
        ((loopCycle 0 invalidTempInput).2).f3 ((loopCycle 0 invalidTempInput).2).f4
        ((loopCycle 0 invalidTempInput).2).temperature ∈ cycleLines 0 invalidTempInput 0 := by
  constructor
  · simp [cycleLines, invalidTempInput]
  · simp [cycleLines, invalidTempInput]

/-- C7 amended: when a thermal read fails, the diagnostic notice is
emitted on the same single serial stream as the data, as a free-text
line immediately before that cycle's CSV record. -/
theorem C7_notice_same_stream (p0 ws : ℚ) (inp : CycleInput)
    (h : inp.dhtTemp = Option.none) :
    cycleLines p0 inp ws =
      [dhtNotice,
       csvLine ws ((loopCycle p0 inp).2).density ((loopCycle p0 inp).2).f1
         ((loopCycle p0 inp).2).f2 ((loopCycle p0 inp).2).f3 ((loopCycle p0 inp).2).f4
         ((loopCycle p0 inp).2).temperature] := by
  simp [cycleLines, h]

/-- Witness for the amended C7 at the concrete invalid-thermal input. -/
theorem C7_notice_same_stream_witness :
    invalidTempInput.dhtTemp = Option.none ∧
    cycleLines 0 invalidTempInput 0 =
      [dhtNotice,
       csvLine 0 ((loopCycle 0 invalidTempInput).2).density
         ((loopCycle 0 invalidTempInput).2).f1 ((loopCycle 0 invalidTempInput).2).f2
         ((loopCycle 0 invalidTempInput).2).f3 ((loopCycle 0 invalidTempInput).2).f4
         ((loopCycle 0 invalidTempInput).2).temperature] :=
  ⟨rfl, C7_notice_same_stream 0 0 invalidTempInput rfl⟩

/-- C8: with raw ADC 512 and the sketch constants (5.0 V supply, 2 kPa
full scale, 0.5 V zero offset), the conversion pipeline yields voltage
2560/1023 ≈ 2.5 V and a pressure of 1024250/1023 ≈ 1001.2 Pa — within
1.5 Pa of 1000 Pa — before baseline subtraction. -/
theorem C8_scenario_adc512 :
    voltageOf 512 = 2560/1023 ∧
    rawPressure 512 = 1024250/1023 ∧
    |rawPressure 512 - 1000| < 3/2 := by
  refine ⟨?_, ?_, ?_⟩
  · norm_num [voltageOf, Vcc, ADC_RES]
  · norm_num [rawPressure_eq]
  · rw [rawPressure_eq]
    rw [abs_sub_lt_iff]
    norm_num

/-- C9: for every ADC reading in [0, 1023], every baseline captured
from such a reading (or still unset), and every temperature strictly
above -273.15 °C — including the -99 fallback — the dynamic pressure is
bounded by 2500 Pa (below the fixed atmospheric 101325 Pa), the derived
density is strictly positive, and the radicand of the unguarded
`windSpeed = sqrt(2·q/ρ)` is non-negative, so the division and square
root are well defined (no NaN or infinity) and the speed is a finite
non-negative real. -/
theorem C9_reachable_derivation_safe (p0 : ℚ) (inp : CycleInput)
    (hadc0 : 0 ≤ inp.adcValue) (hadc1 : inp.adcValue ≤ 1023)
    (hbase : p0 = 0 ∨ ∃ b : ℤ, 0 ≤ b ∧ b ≤ 1023 ∧ p0 = rawPressure b)
    (htemp : inp.dhtTemp = Option.none ∨
      ∃ t : ℚ, inp.dhtTemp = Option.some t ∧ -27315/100 < t) :
    0 ≤ ((loopCycle p0 inp).2).dynamicPressure ∧
    ((loopCycle p0 inp).2).dynamicPressure ≤ 2500 ∧
    ((loopCycle p0 inp).2).dynamicPressure < atm_pressure ∧
    0 < ((loopCycle p0 inp).2).temperatureK ∧
    0 < ((loopCycle p0 inp).2).density ∧
    0 ≤ ((loopCycle p0 inp).2).windSpeedSq ∧
    Real.sqrt (((loopCycle p0 inp).2).windSpeedSq : ℝ) ^ 2 =
      (((loopCycle p0 inp).2).windSpeedSq : ℝ) ∧
    0 ≤ Real.sqrt (((loopCycle p0 inp).2).windSpeedSq : ℝ) := by
  have hraw := rawPressure_bounds inp.adcValue hadc0 hadc1
  have hPa : -2500 ≤ ((loopCycle p0 inp).2).pressure_Pa ∧
      ((loopCycle p0 inp).2).pressure_Pa ≤ 2500 := by
    rw [loopCycle_pressure_Pa]
    rcases hbase with rfl | ⟨b, hb0, hb1, rfl⟩
    · simp only [ne_eq, not_true_eq_false, if_false]
      exact ⟨by linarith [hraw.1], by linarith [hraw.2]⟩
    · have hrb := rawPressure_bounds b hb0 hb1
      by_cases hz : rawPressure b ≠ 0
      · rw [if_pos hz]
        exact ⟨by linarith [hraw.1, hrb.2], by linarith [hraw.2, hrb.1]⟩
      · rw [if_neg hz]
        exact ⟨by linarith [hraw.1], by linarith [hraw.2]⟩
  have hdyn0 : 0 ≤ ((loopCycle p0 inp).2).dynamicPressure := by
    rw [loopCycle_dynamicPressure]
    exact le_max_right _ _
  have hdyn1 : ((loopCycle p0 inp).2).dynamicPressure ≤ 2500 := by
    rw [loopCycle_dynamicPressure]
    exact max_le hPa.2 (by norm_num)
  have hdynatm : ((loopCycle p0 inp).2).dynamicPressure < atm_pressure := by
    rw [atm_pressure]
    linarith
  have htK : 0 < ((loopCycle p0 inp).2).temperatureK := by
    rw [loopCycle_temperatureK, loopCycle_temperature]
    rcases htemp with h | ⟨t, h, ht⟩
    · rw [h]
      norm_num
    · rw [h]
      simp only
      linarith
  have hden : 0 < ((loopCycle p0 inp).2).density := by
    rw [loopCycle_density]
    apply div_pos
    · rw [atm_pressure]
      linarith
    · exact mul_pos (by norm_num) htK
  have hsq : 0 ≤ ((loopCycle p0 inp).2).windSpeedSq := by
    rw [loopCycle_windSpeedSq]
    exact div_nonneg (by linarith) (le_of_lt hden)
  have hsqR : (0 : ℝ) ≤ (((loopCycle p0 inp).2).windSpeedSq : ℝ) := by
    exact_mod_cast hsq
  exact ⟨hdyn0, hdyn1, hdynatm, htK, hden, hsq,
    Real.sq_sqrt hsqR, Real.sqrt_nonneg _⟩

/-- Witness for C9: ADC 512, unset baseline and the -99 fallback
temperature give a positive density and a non-negative radicand. -/
theorem C9_reachable_derivation_safe_witness :
    (0 : ℤ) ≤ invalidTempInput.adcValue ∧ invalidTempInput.adcValue ≤ 1023 ∧
    0 < ((loopCycle 0 invalidTempInput).2).density ∧
    0 ≤ ((loopCycle 0 invalidTempInput).2).windSpeedSq :=
  ⟨by norm_num [invalidTempInput], by norm_num [invalidTempInput],
   (C9_reachable_derivation_safe 0 invalidTempInput (by norm_num [invalidTempInput])
      (by norm_num [invalidTempInput]) (Or.inl rfl) (Or.inl rfl)).2.2.2.2.1,
   (C9_reachable_derivation_safe 0 invalidTempInput (by norm_num [invalidTempInput])
      (by norm_num [invalidTempInput]) (Or.inl rfl) (Or.inl rfl)).2.2.2.2.2.1⟩

/-- C10: on the cycle that captures the baseline (boot state
`pressure0 = 0`, non-zero computed pressure) no subtraction is applied:
the record's pressure is the uncorrected raw pressure and its dynamic
pressure is the clamp of that uncorrected value, so the first record can
show non-zero dynamic pressure even at zero flow; every following cycle
subtracts the captured baseline. -/
theorem C10_capture_cycle_no_subtraction (inp : CycleInput)
    (h : rawPressure inp.adcValue ≠ 0) :
    ((loopCycle 0 inp).2).pressure_Pa = rawPressure inp.adcValue ∧
    ((loopCycle 0 inp).2).dynamicPressure = max (rawPressure inp.adcValue) 0 ∧
    (loopCycle 0 inp).1 = rawPressure inp.adcValue ∧
    ∀ inp2 : CycleInput,
      ((loopCycle (loopCycle 0 inp).1 inp2).2).pressure_Pa =
        rawPressure inp2.adcValue - rawPressure inp.adcValue := by
  have h1 : ((loopCycle 0 inp).2).pressure_Pa = rawPressure inp.adcValue := by
    simp [loopCycle_pressure_Pa]
  have h3 : (loopCycle 0 inp).1 = rawPressure inp.adcValue := by
    simp [loopCycle_fst]
  refine ⟨h1, ?_, h3, ?_⟩
  · rw [loopCycle_dynamicPressure, h1]
  · intro inp2
    rw [loopCycle_pressure_Pa, h3, if_pos h]

/-- Witness for C10: at ADC 512 the capture cycle reports the full
uncorrected ≈1001 Pa (non-zero at zero flow) and the repeat cycle
subtracts the captured baseline. -/
theorem C10_capture_cycle_no_subtraction_witness :
    rawPressure sampleInput.adcValue ≠ 0 ∧
    ((loopCycle 0 sampleInput).2).pressure_Pa = rawPressure sampleInput.adcValue ∧
    ((loopCycle 0 sampleInput).2).dynamicPressure = max (rawPressure sampleInput.adcValue) 0 ∧
    0 < ((loopCycle 0 sampleInput).2).dynamicPressure ∧
    ((loopCycle (loopCycle 0 sampleInput).1 sampleInput).2).pressure_Pa =
      rawPressure sampleInput.adcValue - rawPressure sampleInput.adcValue := by
  have h : rawPressure sampleInput.adcValue ≠ 0 := by
    norm_num [sampleInput, rawPressure_eq]
  have hthm := C10_capture_cycle_no_subtraction sampleInput h
  refine ⟨h, hthm.1, hthm.2.1, ?_, hthm.2.2.2 sampleInput⟩
  rw [hthm.2.1]
  norm_num [sampleInput, rawPressure_eq, max_def]

end WinTunnel
